import Mathlib

/-!
# find-ip.js : the interface reporter

A shallow embedding of `src/find-ip.js` and a verification of its printed
output.

The script has two pieces of state: the interface table that
`os.networkInterfaces()` returns (read once, never written) and the standard
output stream (only appended to, through `console.log`).  Both are fields of
`World`; every statement of the script becomes a function on `World`.

Strings are Lean strings.  The only string operations of the script are
concatenation (template literals) and `startsWith` against ASCII prefixes, on
which code points and UTF-16 code units agree.
-/

namespace FindIp

/-! ## Data model -/

/-- One address record of an adapter, with the three fields the script reads
(`interface.address`, `interface.family`, `interface.internal`). -/
structure NetworkInterfaceInfo where
  address : String
  family : String
  internal : Bool
deriving DecidableEq, Repr

/-- The object returned by `os.networkInterfaces()`: its own enumerable
properties, each adapter name with its array of records, listed in the order in
which `Object.keys` enumerates them.  An object has each key once; where a
list repeats a key, `getProp` reads the first binding, as for any JavaScript
property read the binding is found by name and not by position. -/
abbrev Interfaces := List (String × List NetworkInterfaceInfo)

/-- The state the script runs in: the interface table of the host and the
arguments of the `console.log` calls made so far, oldest first. -/
structure World where
  interfaces : Interfaces
  stdout : List String
deriving DecidableEq, Repr

/-! ## Primitives of the platform -/

/-- The call `os.networkInterfaces()`. -/
def osNetworkInterfaces (w : World) : Interfaces := w.interfaces

/-- The call `Object.keys(o)`: the property names, in property order. -/
def objectKeys (o : Interfaces) : List String := o.map Prod.fst

/-- The property read `o[name]`; `none` stands for `undefined`. -/
def getProp : Interfaces → String → Option (List NetworkInterfaceInfo)
  | [], _ => none
  | (k, v) :: rest, name => if k = name then some v else getProp rest name

/-- The call `console.log(msg)`: one more entry on standard output. -/
def consoleLog (w : World) (msg : String) : World :=
  { w with stdout := w.stdout ++ [msg] }

/-- The method `s.startsWith(p)`. -/
def startsWith (s p : String) : Bool := p.data.isPrefixOf s.data

/-! ## The script -/

/-- The guard of line 13: `interface.family === "IPv4" && !interface.internal`. -/
def qualifies (iface : NetworkInterfaceInfo) : Bool :=
  decide (iface.family = "IPv4") && !iface.internal

/-- The guard of lines 17-21: the three `startsWith` tests joined by `||`. -/
def isRecommended (address : String) : Bool :=
  startsWith address "192.168." || startsWith address "10." || startsWith address "172."

/-- The template literal of line 14. -/
def interfaceLine (name address : String) : String :=
  "📡 " ++ name ++ ": " ++ address

/-- The template literal of line 22. -/
def recommendedLine (address : String) : String :=
  "✅ Recommended for Flutter: " ++ address

/-- The body of the inner loop (lines 12-24) for one record. -/
def forEntry (name : String) (w : World) (iface : NetworkInterfaceInfo) : World :=
  if qualifies iface then
    let w := consoleLog w (interfaceLine name iface.address)
    if isRecommended iface.address then
      consoleLog w (recommendedLine iface.address)
    else
      w
  else
    w

/-- The body of the outer loop (lines 9-25) for one adapter name.  Iterating
`undefined` with `for ... of` throws a `TypeError`. -/
def forName (interfaces : Interfaces) (w : World) (name : String) : Except String World :=
  match getProp interfaces name with
  | none => Except.error "TypeError: networkInterface is not iterable"
  | some networkInterface => Except.ok (networkInterface.foldl (forEntry name) w)

/-- The outer loop (lines 8-26) over a list of adapter names. -/
def forNames (interfaces : Interfaces) : List String → World → Except String World
  | [], w => Except.ok w
  | name :: names, w =>
    match forName interfaces w name with
    | Except.error e => Except.error e
    | Except.ok w => forNames interfaces names w

/-- The function `getLocalIPAddress` (lines 3-35). -/
def getLocalIPAddress (w : World) : Except String World :=
  let interfaces := osNetworkInterfaces w
  let w := consoleLog w "🌐 Network Interfaces:"
  match forNames interfaces (objectKeys interfaces) w with
  | Except.error e => Except.error e
  | Except.ok w =>
    let w := consoleLog w "\n📋 Instructions:"
    let w := consoleLog w
      "1. Look for an IP address starting with 192.168.x.x, 10.x.x.x, or 172.x.x.x"
    let w := consoleLog w "2. Update lib/core/config.dart with your actual IP address"
    let w := consoleLog w "3. Update blabbin-backend/src/config/index.js CORS settings"
    let w := consoleLog w "4. Restart both the backend server and Flutter app"
    Except.ok w

/-- The script as a whole (the call of line 37) on a host whose interface
table is `interfaces`, from an empty standard output: the `console.log`
arguments in call order, or the error the run stops with. -/
def run (interfaces : Interfaces) : Except String (List String) :=
  match getLocalIPAddress { interfaces := interfaces, stdout := [] } with
  | Except.error e => Except.error e
  | Except.ok w => Except.ok w.stdout

/-! ## Vocabulary for the statements -/

/-- The header: the argument of the `console.log` of line 6. -/
def header : String := "🌐 Network Interfaces:"

/-- The footer: the arguments of the five `console.log` calls of lines 28-34. -/
def footer : List String :=
  ["\n📋 Instructions:",
   "1. Look for an IP address starting with 192.168.x.x, 10.x.x.x, or 172.x.x.x",
   "2. Update lib/core/config.dart with your actual IP address",
   "3. Update blabbin-backend/src/config/index.js CORS settings",
   "4. Restart both the backend server and Flutter app"]

/-- The host of the end-to-end example: one adapter with a private address
and the loopback adapter. -/
def exampleHost : Interfaces :=
  [("eth0", [{ address := "192.168.1.50", family := "IPv4", internal := false }]),
   ("lo", [{ address := "127.0.0.1", family := "IPv4", internal := true }])]

/-- What one record adds to standard output when it is visited under `name`. -/
def entryLines (name : String) (iface : NetworkInterfaceInfo) : List String :=
  (forEntry name { interfaces := [], stdout := [] } iface).stdout

/-- The records of a table in the order the two loops visit them, each with
the adapter name it is visited under. -/
def entriesInOrder (o : Interfaces) : List (String × NetworkInterfaceInfo) :=
  (objectKeys o).flatMap fun name => ((getProp o name).getD []).map fun e => (name, e)

/-- The visited records that pass the guard of line 13. -/
def qualifyingEntries (o : Interfaces) : List (String × NetworkInterfaceInfo) :=
  (entriesInOrder o).filter fun p => qualifies p.2

/-- The number of terminal lines a sequence of `console.log` calls occupies:
each call ends its text with one newline, and a newline inside the text ends a
line too. -/
def terminalLines (msgs : List String) : Nat :=
  (msgs.map fun m => m.data.count (Char.ofNat 10) + 1).sum

/-- The lines the two loops print for a table: the lines of each visited
record, in visiting order. -/
def body (o : Interfaces) : List String :=
  (entriesInOrder o).flatMap fun p => entryLines p.1 p.2

/-- The first character of a string, if it has one. -/
def firstChar (s : String) : Option Char := s.data.head?

/-- The canonical text of the IPv4 address with octets `a`, `b`, `c`, `d`:
the four decimal numerals, without leading zeros, joined by dots. -/
def dottedDecimal (a b c d : Nat) : String :=
  Nat.repr a ++ "." ++ Nat.repr b ++ "." ++ Nat.repr c ++ "." ++ Nat.repr d

/-! ## The loops in closed form -/

theorem entryLines_eq (name : String) (iface : NetworkInterfaceInfo) :
    entryLines name iface =
      if qualifies iface then
        interfaceLine name iface.address ::
          (if isRecommended iface.address then [recommendedLine iface.address] else [])
      else [] := by
  unfold entryLines forEntry consoleLog
  by_cases hq : qualifies iface = true <;> by_cases hr : isRecommended iface.address = true <;>
    simp [hq, hr]

theorem forEntry_eq (name : String) (w : World) (iface : NetworkInterfaceInfo) :
    forEntry name w iface =
      { interfaces := w.interfaces, stdout := w.stdout ++ entryLines name iface } := by
  rw [entryLines_eq]
  unfold forEntry consoleLog
  by_cases hq : qualifies iface = true <;> by_cases hr : isRecommended iface.address = true <;>
    simp [hq, hr]

theorem foldl_forEntry (name : String) (es : List NetworkInterfaceInfo) (w : World) :
    es.foldl (forEntry name) w =
      { interfaces := w.interfaces, stdout := w.stdout ++ es.flatMap (entryLines name) } := by
  induction es generalizing w with
  | nil => simp
  | cons e es ih => simp [List.foldl_cons, ih, forEntry_eq, List.append_assoc]

theorem getProp_of_mem_objectKeys (o : Interfaces) (name : String)
    (h : name ∈ objectKeys o) : ∃ es, getProp o name = some es := by
  induction o with
  | nil => simp [objectKeys] at h
  | cons p rest ih =>
    obtain ⟨k, v⟩ := p
    by_cases hk : k = name
    · exact ⟨v, by simp [getProp, hk]⟩
    · have h2 : name ∈ objectKeys rest := by
        simp only [objectKeys, List.map_cons, List.mem_cons] at h
        rcases h with h | h
        · exact absurd h.symm hk
        · exact h
      obtain ⟨es, hes⟩ := ih h2
      exact ⟨es, by simp [getProp, hk, hes]⟩

theorem forNames_eq (o : Interfaces) (names : List String) (w : World)
    (h : ∀ n ∈ names, n ∈ objectKeys o) :
    forNames o names w = Except.ok
      { interfaces := w.interfaces,
        stdout := w.stdout ++
          names.flatMap fun n => ((getProp o n).getD []).flatMap (entryLines n) } := by
  induction names generalizing w with
  | nil => simp [forNames]
  | cons n names ih =>
    obtain ⟨es, hes⟩ := getProp_of_mem_objectKeys o n (h n (List.mem_cons_self _ _))
    have h2 : ∀ m ∈ names, m ∈ objectKeys o := fun m hm => h m (List.mem_cons_of_mem _ hm)
    simp [forNames, forName, hes, foldl_forEntry, ih _ h2, List.append_assoc]

theorem body_eq_names (o : Interfaces) :
    body o =
      (objectKeys o).flatMap fun n => ((getProp o n).getD []).flatMap (entryLines n) := by
  unfold body entriesInOrder
  generalize objectKeys o = names
  induction names with
  | nil => simp
  | cons n names ih =>
    simp only [List.flatMap_cons, List.flatMap_append, ih]
    congr 1
    generalize (getProp o n).getD [] = es
    induction es with
    | nil => simp
    | cons e es ihe => simp [ihe]

theorem getLocalIPAddress_eq (w : World) :
    getLocalIPAddress w = Except.ok
      { interfaces := w.interfaces,
        stdout := w.stdout ++ header :: (body w.interfaces ++ footer) } := by
  unfold getLocalIPAddress
  simp only [osNetworkInterfaces]
  rw [forNames_eq _ _ _ (fun n hn => hn)]
  simp [consoleLog, body_eq_names, header, footer, List.append_assoc]

theorem run_eq (o : Interfaces) :
    run o = Except.ok (header :: (body o ++ footer)) := by
  simp [run, getLocalIPAddress_eq]

theorem body_eq_qualifying (o : Interfaces) :
    body o = (qualifyingEntries o).flatMap fun p =>
      interfaceLine p.1 p.2.address ::
        (if isRecommended p.2.address then [recommendedLine p.2.address] else []) := by
  unfold body qualifyingEntries
  generalize entriesInOrder o = l
  induction l with
  | nil => simp
  | cons p l ih =>
    by_cases hq : qualifies p.2 = true
    · simp only [List.flatMap_cons, List.filter_cons, hq, if_true, ih]
      simp [entryLines_eq, hq]
    · simp only [List.flatMap_cons, List.filter_cons, hq, if_false, ih]
      simp [entryLines_eq, hq]

/-! ## Telling the lines apart -/

theorem firstChar_interfaceLine (name address : String) :
    firstChar (interfaceLine name address) = some (Char.ofNat 0x1F4E1) := by
  simp [firstChar, interfaceLine, String.data_append]

theorem firstChar_recommendedLine (address : String) :
    firstChar (recommendedLine address) = some (Char.ofNat 0x2705) := by
  simp [firstChar, recommendedLine, String.data_append]

theorem firstChar_of_startsWith (s p : String) (c : Char)
    (hp : firstChar p = some c) (h : startsWith s p = true) : firstChar s = some c := by
  unfold startsWith at h
  unfold firstChar at hp ⊢
  cases hpd : p.data with
  | nil => simp [hpd] at hp
  | cons x xs =>
    cases hsd : s.data with
    | nil => simp [hpd, hsd] at h
    | cons y ys =>
      simp [hpd, hsd] at h hp ⊢
      rw [← h.1, hp]

theorem startsWith_append_self (p s : String) : startsWith (p ++ s) p = true := by
  simp [startsWith, String.data_append]

theorem recommendedLine_injective (a b : String)
    (h : recommendedLine a = recommendedLine b) : a = b := by
  have h2 := congrArg String.data h
  simp only [recommendedLine, String.data_append] at h2
  exact String.ext (List.append_cancel_left h2)

theorem interfaceLine_ne_recommendedLine (name a b : String) :
    interfaceLine name a ≠ recommendedLine b := by
  intro h
  have h2 := congrArg firstChar h
  rw [firstChar_interfaceLine, firstChar_recommendedLine] at h2
  exact absurd h2 (by decide)

theorem mem_body_iff (o : Interfaces) (l : String) :
    l ∈ body o ↔ ∃ p ∈ qualifyingEntries o,
      l = interfaceLine p.1 p.2.address ∨
        (isRecommended p.2.address = true ∧ l = recommendedLine p.2.address) := by
  rw [body_eq_qualifying]
  simp only [List.mem_flatMap, List.mem_cons]
  constructor
  · rintro ⟨p, hp, h⟩
    refine ⟨p, hp, ?_⟩
    rcases h with h | h
    · exact Or.inl h
    · by_cases hr : isRecommended p.2.address = true
      · simp [hr] at h
        exact Or.inr ⟨hr, h⟩
      · simp [hr] at h
  · rintro ⟨p, hp, h⟩
    refine ⟨p, hp, ?_⟩
    rcases h with h | ⟨hr, h⟩
    · exact Or.inl h
    · exact Or.inr (by simp [hr, h])

theorem firstChar_of_mem_body (o : Interfaces) (l : String) (h : l ∈ body o) :
    firstChar l = some (Char.ofNat 0x1F4E1) ∨ firstChar l = some (Char.ofNat 0x2705) := by
  obtain ⟨p, _, h | ⟨_, h⟩⟩ := (mem_body_iff o l).1 h
  · exact Or.inl (h ▸ firstChar_interfaceLine _ _)
  · exact Or.inr (h ▸ firstChar_recommendedLine _)

theorem header_not_mem_body (o : Interfaces) : header ∉ body o := by
  intro h
  have hc : firstChar header = some (Char.ofNat 0x1F310) := by decide
  rcases firstChar_of_mem_body o header h with h2 | h2 <;>
    · rw [hc] at h2
      exact absurd h2 (by decide)

theorem footer_not_mem_body (o : Interfaces) (l : String) (hl : l ∈ footer) : l ∉ body o := by
  intro h
  have hc : firstChar l ≠ some (Char.ofNat 0x1F4E1) ∧ firstChar l ≠ some (Char.ofNat 0x2705) := by
    simp only [footer, List.mem_cons, List.mem_singleton, List.not_mem_nil, or_false] at hl
    rcases hl with hl | hl | hl | hl | hl <;> subst hl <;> decide
  rcases firstChar_of_mem_body o l h with h2 | h2
  · exact hc.1 h2
  · exact hc.2 h2

theorem getProp_some_mem_objectKeys (o : Interfaces) (name : String)
    (es : List NetworkInterfaceInfo) (h : getProp o name = some es) : name ∈ objectKeys o := by
  induction o with
  | nil => simp [getProp] at h
  | cons p rest ih =>
    obtain ⟨k, v⟩ := p
    by_cases hk : k = name
    · simp [objectKeys, hk]
    · simp only [getProp, hk, if_false] at h
      have := ih h
      simp only [objectKeys, List.map_cons, List.mem_cons] at this ⊢
      exact Or.inr this

theorem mem_entriesInOrder_iff (o : Interfaces) (name : String) (e : NetworkInterfaceInfo) :
    (name, e) ∈ entriesInOrder o ↔ ∃ es, getProp o name = some es ∧ e ∈ es := by
  unfold entriesInOrder
  simp only [List.mem_flatMap, List.mem_map, Prod.mk.injEq]
  constructor
  · rintro ⟨n, hn, e2, he2, rfl, rfl⟩
    obtain ⟨es, hes⟩ := getProp_of_mem_objectKeys o n hn
    exact ⟨es, hes, by simpa [hes] using he2⟩
  · rintro ⟨es, hes, he⟩
    exact ⟨name, getProp_some_mem_objectKeys o name es hes, e, by simpa [hes] using he, rfl, rfl⟩

/-! ## Further lemmas -/

theorem qualifies_iff (e : NetworkInterfaceInfo) :
    qualifies e = true ↔ e.family = "IPv4" ∧ e.internal = false := by
  simp [qualifies]

theorem mem_of_getProp (o : Interfaces) (name : String) (es : List NetworkInterfaceInfo)
    (h : getProp o name = some es) : (name, es) ∈ o := by
  induction o with
  | nil => simp [getProp] at h
  | cons p rest ih =>
    obtain ⟨k, v⟩ := p
    by_cases hk : k = name
    · simp only [getProp, hk, if_true, Option.some.injEq] at h
      simp [hk, h]
    · simp only [getProp, hk, if_false] at h
      exact List.mem_cons_of_mem _ (ih h)

theorem objectKeys_removeNonQualifying (o : Interfaces) :
    objectKeys (o.map fun p => (p.1, p.2.filter qualifies)) = objectKeys o := by
  simp [objectKeys, Function.comp_def]

theorem getProp_removeNonQualifying (o : Interfaces) (name : String) :
    getProp (o.map fun p => (p.1, p.2.filter qualifies)) name =
      (getProp o name).map (List.filter qualifies) := by
  induction o with
  | nil => rfl
  | cons p rest ih =>
    obtain ⟨k, v⟩ := p
    by_cases hk : k = name
    · simp [getProp, hk]
    · simp [getProp, hk, ih]

theorem flatMap_entryLines_filter (name : String) (es : List NetworkInterfaceInfo) :
    (es.filter qualifies).flatMap (entryLines name) = es.flatMap (entryLines name) := by
  induction es with
  | nil => rfl
  | cons e es ih =>
    by_cases hq : qualifies e = true
    · simp only [List.filter_cons, hq, if_true, List.flatMap_cons, ih]
    · have he : entryLines name e = [] := by simp [entryLines_eq, hq]
      simp only [List.filter_cons, hq, Bool.false_eq_true, if_false, List.flatMap_cons, ih, he,
        List.nil_append]

theorem firstChar_of_mem_footer (l : String) (hl : l ∈ footer) :
    firstChar l ≠ some (Char.ofNat 0x1F4E1) ∧ firstChar l ≠ some (Char.ofNat 0x2705) := by
  simp only [footer, List.mem_cons, List.mem_singleton, List.not_mem_nil, or_false] at hl
  rcases hl with hl | hl | hl | hl | hl <;> subst hl <;> decide

theorem isRecommended_iff (address : String) :
    isRecommended address = true ↔
      (startsWith address "192.168." = true ∨ startsWith address "10." = true ∨
        startsWith address "172." = true) := by
  simp [isRecommended, or_assoc]

theorem recommendedLine_mem_output_iff (o : Interfaces) (a : String) :
    recommendedLine a ∈ header :: (body o ++ footer) ↔
      ∃ p ∈ qualifyingEntries o, p.2.address = a ∧ isRecommended a = true := by
  constructor
  · intro h
    rcases List.mem_cons.1 h with h | h
    · have h2 := congrArg firstChar h
      rw [firstChar_recommendedLine] at h2
      exact absurd h2 (by decide)
    · rcases List.mem_append.1 h with h | h
      · obtain ⟨p, hp, h | ⟨hr, h⟩⟩ := (mem_body_iff o _).1 h
        · exact absurd h.symm (interfaceLine_ne_recommendedLine _ _ _)
        · have ha := recommendedLine_injective _ _ h
          exact ⟨p, hp, ha.symm, ha ▸ hr⟩
      · exact absurd (firstChar_recommendedLine a) (firstChar_of_mem_footer _ h).2
  · rintro ⟨p, hp, rfl, hr⟩
    exact List.mem_cons_of_mem _
      (List.mem_append_left _ ((mem_body_iff o _).2 ⟨p, hp, Or.inr ⟨hr, rfl⟩⟩))

theorem isPrefixOf_dot (P Q A R : List Char) (hP : '.' ∉ P) (hA : '.' ∉ A) :
    (P ++ '.' :: Q).isPrefixOf (A ++ '.' :: R) = true ↔ A = P ∧ Q.isPrefixOf R = true := by
  induction P generalizing A with
  | nil =>
    cases A with
    | nil => simp
    | cons d A =>
      have hd : '.' ≠ d := fun h => hA (h ▸ List.mem_cons_self _ _)
      simp [hd]
  | cons c P ih =>
    have hc : c ≠ '.' := fun h => hP (h ▸ List.mem_cons_self _ _)
    have hP2 : '.' ∉ P := fun h => hP (List.mem_cons_of_mem _ h)
    cases A with
    | nil => simp [hc]
    | cons d A =>
      have hA2 : '.' ∉ A := fun h => hA (List.mem_cons_of_mem _ h)
      have := ih A hP2 hA2
      rw [List.cons_append, List.cons_append, List.isPrefixOf_cons₂, Bool.and_eq_true,
        beq_iff_eq, this, List.cons.injEq]
      constructor
      · rintro ⟨h1, h2, h3⟩
        exact ⟨⟨h1.symm, h2⟩, h3⟩
      · rintro ⟨⟨h1, h2⟩, h3⟩
        exact ⟨h1.symm, h2, h3⟩

set_option maxRecDepth 100000 in
theorem octet_numeral (a : Nat) (ha : a < 256) :
    '.' ∉ (Nat.repr a).data ∧
      ((Nat.repr a).data = ['1', '0'] ↔ a = 10) ∧
      ((Nat.repr a).data = ['1', '7', '2'] ↔ a = 172) ∧
      ((Nat.repr a).data = ['1', '9', '2'] ↔ a = 192) ∧
      ((Nat.repr a).data = ['1', '6', '8'] ↔ a = 168) := by
  revert a
  decide

theorem dottedDecimal_data (a b c d : Nat) :
    (dottedDecimal a b c d).data =
      (Nat.repr a).data ++ '.' :: ((Nat.repr b).data ++ '.' ::
        ((Nat.repr c).data ++ '.' :: (Nat.repr d).data)) := by
  simp [dottedDecimal, String.data_append]

theorem run_eq_qualifying (o : Interfaces) :
    run o = Except.ok
      (header ::
        ((qualifyingEntries o).flatMap fun p =>
          interfaceLine p.1 p.2.address ::
            (if isRecommended p.2.address then [recommendedLine p.2.address] else []))
        ++ footer) := by
  rw [run_eq, body_eq_qualifying]
  rfl

theorem length_flatMap_lines (l : List (String × NetworkInterfaceInfo)) :
    (l.flatMap fun p =>
        interfaceLine p.1 p.2.address ::
          (if isRecommended p.2.address then [recommendedLine p.2.address] else [])).length
      = l.length + (l.filter fun p => isRecommended p.2.address).length := by
  induction l with
  | nil => rfl
  | cons p l ih =>
    by_cases hr : isRecommended p.2.address = true
    · simp only [List.flatMap_cons, List.length_append, List.length_cons, ih,
        List.filter_cons, hr, if_true, List.length_nil]
      omega
    · simp only [List.flatMap_cons, List.length_append, List.length_cons, ih,
        List.filter_cons, hr, Bool.false_eq_true, if_false, List.length_nil]
      omega

/-! ## The claims -/

/-- C1. For every interface table and every record in it that is printed
(family `IPv4`, not internal), the record prints its interface line and then a
recommended line exactly when its address starts with `192.168.`, `10.` or
`172.`, and the output of the run holds a recommended line for that address if
and only if the address starts with one of the three; `172.16.0.5` and
`172.200.1.1` each get a recommended line and `8.8.8.8` gets none. -/
theorem recommended_line_iff_prefixed (o : Interfaces) (name : String)
    (es : List NetworkInterfaceInfo) (e : NetworkInterfaceInfo) (w : World)
    (hget : getProp o name = some es) (he : e ∈ es)
    (hf : e.family = "IPv4") (hi : e.internal = false) :
    (∃ out, run o = Except.ok out ∧
      ("📡 " ++ name ++ ": " ++ e.address) ∈ out ∧
      (("✅ Recommended for Flutter: " ++ e.address) ∈ out ↔
        (startsWith e.address "192.168." = true ∨ startsWith e.address "10." = true ∨
          startsWith e.address "172." = true))) ∧
    (forEntry name w e).stdout =
      w.stdout ++ ("📡 " ++ name ++ ": " ++ e.address) ::
        (if startsWith e.address "192.168." = true ∨ startsWith e.address "10." = true ∨
            startsWith e.address "172." = true
          then ["✅ Recommended for Flutter: " ++ e.address] else []) ∧
    run [(name, [{ address := "172.16.0.5", family := "IPv4", internal := false }])] =
      Except.ok ("🌐 Network Interfaces:" :: ("📡 " ++ name ++ ": " ++ "172.16.0.5") ::
        "✅ Recommended for Flutter: 172.16.0.5" :: footer) ∧
    run [(name, [{ address := "172.200.1.1", family := "IPv4", internal := false }])] =
      Except.ok ("🌐 Network Interfaces:" :: ("📡 " ++ name ++ ": " ++ "172.200.1.1") ::
        "✅ Recommended for Flutter: 172.200.1.1" :: footer) ∧
    run [(name, [{ address := "8.8.8.8", family := "IPv4", internal := false }])] =
      Except.ok ("🌐 Network Interfaces:" :: ("📡 " ++ name ++ ": " ++ "8.8.8.8") :: footer) := by
  have hq : qualifies e = true := (qualifies_iff e).2 ⟨hf, hi⟩
  have hmem : (name, e) ∈ qualifyingEntries o := by
    unfold qualifyingEntries
    exact List.mem_filter.2 ⟨(mem_entriesInOrder_iff o name e).2 ⟨es, hget, he⟩, hq⟩
  have hsingle : ∀ r : NetworkInterfaceInfo,
      run [(name, [r])] = Except.ok (header :: (entryLines name r ++ footer)) := by
    intro r
    rw [run_eq, body_eq_names]
    simp [objectKeys, getProp]
  refine ⟨⟨header :: (body o ++ footer), run_eq o, ?_, ?_⟩, ?_, ?_, ?_, ?_⟩
  · exact List.mem_cons_of_mem _
      (List.mem_append_left _ ((mem_body_iff o _).2 ⟨(name, e), hmem, Or.inl rfl⟩))
  · rw [← isRecommended_iff]
    have := recommendedLine_mem_output_iff o e.address
    unfold recommendedLine at this
    rw [this]
    constructor
    · rintro ⟨_, _, _, hr⟩
      exact hr
    · intro hr
      exact ⟨(name, e), hmem, rfl, hr⟩
  · rw [forEntry_eq, entryLines_eq]
    simp only [hq, if_true, ← isRecommended_iff]
    rfl
  · have hr : isRecommended "172.16.0.5" = true := by decide
    have hl : recommendedLine "172.16.0.5" = "✅ Recommended for Flutter: 172.16.0.5" := by
      decide
    rw [hsingle, entryLines_eq]
    simp only [show qualifies { address := "172.16.0.5", family := "IPv4", internal := false }
      = true from by decide, hr, hl, if_true, interfaceLine, header, List.cons_append,
      List.nil_append]
  · have hr : isRecommended "172.200.1.1" = true := by decide
    have hl : recommendedLine "172.200.1.1" = "✅ Recommended for Flutter: 172.200.1.1" := by
      decide
    rw [hsingle, entryLines_eq]
    simp only [show qualifies { address := "172.200.1.1", family := "IPv4", internal := false }
      = true from by decide, hr, hl, if_true, interfaceLine, header, List.cons_append,
      List.nil_append]
  · have hr : isRecommended "8.8.8.8" = false := by decide
    rw [hsingle, entryLines_eq]
    simp only [show qualifies { address := "8.8.8.8", family := "IPv4", internal := false }
      = true from by decide, hr, if_true, Bool.false_eq_true, if_false, interfaceLine, header,
      List.cons_append, List.nil_append]

/-- Witness for C1: the `eth0` record of the example host. -/
theorem recommended_line_iff_prefixed_witness :
    getProp exampleHost "eth0" =
        some [{ address := "192.168.1.50", family := "IPv4", internal := false }] ∧
    (∃ out, run exampleHost = Except.ok out ∧
      ("📡 " ++ "eth0" ++ ": " ++ "192.168.1.50") ∈ out ∧
      (("✅ Recommended for Flutter: " ++ "192.168.1.50") ∈ out ↔
        (startsWith "192.168.1.50" "192.168." = true ∨ startsWith "192.168.1.50" "10." = true ∨
          startsWith "192.168.1.50" "172." = true))) :=
  ⟨rfl,
    (recommended_line_iff_prefixed exampleHost "eth0"
      [{ address := "192.168.1.50", family := "IPv4", internal := false }]
      { address := "192.168.1.50", family := "IPv4", internal := false }
      { interfaces := exampleHost, stdout := [] }
      rfl (by decide) rfl rfl).1⟩

/-- C2. A record whose family is not `IPv4` or whose internal flag is true
leaves the state as it was (no interface line and no recommended line), and for
every interface table the run prints the same output after every such record
is removed from the table. -/
theorem non_qualifying_entries_print_nothing (o : Interfaces) (name : String) (w : World)
    (e : NetworkInterfaceInfo) (h : e.family ≠ "IPv4" ∨ e.internal = true) :
    forEntry name w e = w ∧
      run (o.map fun p =>
          (p.1, p.2.filter fun e => decide (e.family = "IPv4") && !e.internal)) = run o := by
  constructor
  · have hq : qualifies e = false := by
      rcases h with h | h <;> simp [qualifies, h]
    simp [forEntry, hq]
  · have hfun : (fun e : NetworkInterfaceInfo => decide (e.family = "IPv4") && !e.internal)
        = qualifies := rfl
    rw [hfun, run_eq, run_eq, body_eq_names, body_eq_names, objectKeys_removeNonQualifying]
    have hn : ∀ n, ((getProp (o.map fun p => (p.1, p.2.filter qualifies)) n).getD []).flatMap
        (entryLines n) = ((getProp o n).getD []).flatMap (entryLines n) := by
      intro n
      rw [getProp_removeNonQualifying]
      cases getProp o n with
      | none => rfl
      | some es => exact flatMap_entryLines_filter n es
    simp only [hn]

/-- Witness for C2: a loopback record next to a qualifying one. -/
theorem non_qualifying_entries_print_nothing_witness :
    forEntry "lo" { interfaces := [], stdout := ["🌐 Network Interfaces:"] }
        { address := "127.0.0.1", family := "IPv4", internal := true }
      = { interfaces := [], stdout := ["🌐 Network Interfaces:"] } ∧
    run ([("lo", [{ address := "127.0.0.1", family := "IPv4", internal := true }]),
          ("eth0", [{ address := "fe80::1", family := "IPv6", internal := false },
                    { address := "10.0.0.7", family := "IPv4", internal := false }])].map
        fun p => (p.1, p.2.filter fun e => decide (e.family = "IPv4") && !e.internal))
      = run [("lo", [{ address := "127.0.0.1", family := "IPv4", internal := true }]),
          ("eth0", [{ address := "fe80::1", family := "IPv6", internal := false },
                    { address := "10.0.0.7", family := "IPv4", internal := false }])] :=
  non_qualifying_entries_print_nothing _ "lo" _ _ (Or.inr rfl)

/-- C3. For every interface table, the interface lines of the output (the
entries that start with `📡 `), in output order and with repetitions, are the
lines of the qualifying records taken adapter by adapter in the order of
`Object.keys` and, within an adapter, in array order. -/
theorem interface_lines_in_visiting_order (o : Interfaces) :
    ∃ out, run o = Except.ok out ∧
      out.filter (fun l => startsWith l "📡 ") =
        (((objectKeys o).flatMap fun name =>
            ((getProp o name).getD []).map fun e => (name, e)).filter
          fun p => decide (p.2.family = "IPv4") && !p.2.internal).map
          fun p => "📡 " ++ p.1 ++ ": " ++ p.2.address := by
  refine ⟨header :: (body o ++ footer), run_eq o, ?_⟩
  have hh : startsWith header "📡 " = false := by decide
  have hf : footer.filter (fun l => startsWith l "📡 ") = [] := by decide
  have hb : (body o).filter (fun l => startsWith l "📡 ") =
      (qualifyingEntries o).map fun p => interfaceLine p.1 p.2.address := by
    rw [body_eq_qualifying]
    generalize qualifyingEntries o = l
    induction l with
    | nil => rfl
    | cons p l ih =>
      have h1 : startsWith (interfaceLine p.1 p.2.address) "📡 " = true := by
        simp [startsWith, interfaceLine, String.data_append]
      have h2 : startsWith (recommendedLine p.2.address) "📡 " = false := by
        cases hsw : startsWith (recommendedLine p.2.address) "📡 " with
        | false => rfl
        | true =>
          have := firstChar_of_startsWith _ "📡 " (Char.ofNat 0x1F4E1) (by decide) hsw
          rw [firstChar_recommendedLine] at this
          exact absurd this (by decide)
      by_cases hr : isRecommended p.2.address = true
      · simp only [List.flatMap_cons, List.filter_append, List.filter_cons, h1, h2, hr,
          if_true, Bool.false_eq_true, if_false, List.filter_nil, ih, List.map_cons,
          List.cons_append, List.nil_append]
      · simp only [List.flatMap_cons, List.filter_append, List.filter_cons, h1, hr,
          if_true, Bool.false_eq_true, if_false, List.filter_nil, ih, List.map_cons,
          List.cons_append, List.nil_append]
  rw [List.filter_cons, hh, List.filter_append, hb, hf]
  simp [qualifyingEntries, entriesInOrder, qualifies, interfaceLine]

/-- C4. For every interface table, the empty one included, the run succeeds,
the header `🌐 Network Interfaces:` is the first entry of its output and it
occurs exactly once in the whole output. -/
theorem header_first_and_exactly_once (o : Interfaces) :
    ∃ out, run o = Except.ok out ∧
      out.head? = some "🌐 Network Interfaces:" ∧
      out.count "🌐 Network Interfaces:" = 1 := by
  refine ⟨header :: (body o ++ footer), run_eq o, rfl, ?_⟩
  have h1 : (body o).count header = 0 := List.count_eq_zero.2 (header_not_mem_body o)
  have h2 : footer.count header = 0 := by decide
  have h3 : (header :: (body o ++ footer)).count header = 1 := by
    rw [List.count_cons_self, List.count_append, h1, h2]
  exact h3

/-- C5, as the code has it. For every interface table, one with no qualifying
address included, the output ends with the footer; the footer is the same five
`console.log` calls for every table (a heading that starts with a newline and
four numbered instructions, six terminal lines in all); the only place the
footer occurs in the output is its end; and every entry that is an interface
line or a recommended line stands before the footer. -/
theorem footer_last_and_exactly_once (o : Interfaces) :
    ∃ pre, run o = Except.ok (pre ++
        ["\n📋 Instructions:",
         "1. Look for an IP address starting with 192.168.x.x, 10.x.x.x, or 172.x.x.x",
         "2. Update lib/core/config.dart with your actual IP address",
         "3. Update blabbin-backend/src/config/index.js CORS settings",
         "4. Restart both the backend server and Flutter app"]) ∧
      footer.length = 5 ∧ terminalLines footer = 6 ∧
      (∀ p s, pre ++ footer = p ++ footer ++ s → p = pre ∧ s = []) ∧
      (∀ l ∈ footer, (pre ++ footer).count l = 1) ∧
      (∀ i l, (pre ++ footer)[i]? = some l →
        (startsWith l "📡 " = true ∨ startsWith l "✅ " = true) → i < pre.length) := by
  have hpre : ∀ l ∈ footer, l ∉ header :: body o := by
    intro l hl hmem
    rcases List.mem_cons.1 hmem with h | h
    · subst h
      exact absurd hl (by decide)
    · exact footer_not_mem_body o l hl h
  refine ⟨header :: body o, by rw [run_eq]; rfl, rfl, by decide, ?_, ?_, ?_⟩
  · intro p s h
    have h0 := hpre "\n📋 Instructions:" (by decide)
    have h1 : header :: body o ++ "\n📋 Instructions:" :: footer.tail
        = p ++ "\n📋 Instructions:" :: (footer.tail ++ s) := by
      have hf : footer = "\n📋 Instructions:" :: footer.tail := rfl
      rw [← hf, ← List.cons_append, ← hf, ← List.append_assoc]
      exact h
    have h2 := (List.append_cons_inj_of_not_mem h0 (by decide)).1 h1
    refine ⟨h2.1.symm, ?_⟩
    have h3 := congrArg List.length h2.2.2
    rw [List.length_append] at h3
    exact List.length_eq_zero.1 (by omega)
  · intro l hl
    rw [List.count_append, List.count_eq_zero.2 (hpre l hl)]
    revert l
    decide
  · intro i l hget hline
    by_contra hlt
    rw [List.getElem?_append_right (Nat.le_of_not_lt hlt)] at hget
    have hmem : l ∈ footer := List.getElem?_mem hget
    have hc := firstChar_of_mem_footer l hmem
    rcases hline with h | h
    · exact hc.1 (firstChar_of_startsWith l "📡 " _ (by decide) h)
    · exact hc.2 (firstChar_of_startsWith l "✅ " _ (by decide) h)

/-- C5 as stated fails: on the empty interface table the output is the header
followed by the footer, and what follows the header is neither four
`console.log` calls nor four terminal lines. -/
theorem footer_not_four_lines :
    ¬ ∃ f : List String,
      run [] = Except.ok ("🌐 Network Interfaces:" :: f) ∧
        (f.length = 4 ∨ terminalLines f = 4) := by
  rintro ⟨f, hrun, hlen⟩
  rw [run_eq] at hrun
  have hf : f = footer := by
    have := List.tail_eq_of_cons_eq (Except.ok.inj hrun)
    simpa [body, entriesInOrder, objectKeys] using this.symm
  subst hf
  revert hlen
  decide

/-- C6, as the code has it. On the example host (`eth0` with `192.168.1.50`,
`lo` with the internal `127.0.0.1`) the output is exactly the header, the line
`📡 eth0: 192.168.1.50`, the line `✅ Recommended for Flutter: 192.168.1.50`,
nothing for `lo`, and then the footer of five `console.log` calls: the heading
that starts with a newline and the four numbered instructions. -/
theorem example_host_output :
    run [("eth0", [{ address := "192.168.1.50", family := "IPv4", internal := false }]),
         ("lo", [{ address := "127.0.0.1", family := "IPv4", internal := true }])]
      = Except.ok
      ["🌐 Network Interfaces:",
       "📡 eth0: 192.168.1.50",
       "✅ Recommended for Flutter: 192.168.1.50",
       "\n📋 Instructions:",
       "1. Look for an IP address starting with 192.168.x.x, 10.x.x.x, or 172.x.x.x",
       "2. Update lib/core/config.dart with your actual IP address",
       "3. Update blabbin-backend/src/config/index.js CORS settings",
       "4. Restart both the backend server and Flutter app"] := by
  rfl

/-- C6 as stated fails: on the example host, what follows the recommended line
is neither four `console.log` calls nor four terminal lines. -/
theorem example_host_footer_not_four_lines :
    ¬ ∃ f : List String,
      run [("eth0", [{ address := "192.168.1.50", family := "IPv4", internal := false }]),
           ("lo", [{ address := "127.0.0.1", family := "IPv4", internal := true }])]
        = Except.ok
          ("🌐 Network Interfaces:" :: "📡 eth0: 192.168.1.50" ::
            "✅ Recommended for Flutter: 192.168.1.50" :: f) ∧
        (f.length = 4 ∨ terminalLines f = 4) := by
  rintro ⟨f, hrun, hlen⟩
  have hout : run [("eth0", [{ address := "192.168.1.50", family := "IPv4", internal := false }]),
         ("lo", [{ address := "127.0.0.1", family := "IPv4", internal := true }])]
      = Except.ok ("🌐 Network Interfaces:" :: "📡 eth0: 192.168.1.50" ::
            "✅ Recommended for Flutter: 192.168.1.50" :: footer) := rfl
  rw [hout] at hrun
  have hf : f = footer := by
    have h1 := List.tail_eq_of_cons_eq (Except.ok.inj hrun)
    have h2 := List.tail_eq_of_cons_eq h1
    exact (List.tail_eq_of_cons_eq h2).symm
  subst hf
  revert hlen
  decide

/-- C7. For every interface table with no qualifying record (no record that is
IPv4 and not internal), which covers the empty table and adapters with empty
record arrays, the run completes without error and its output is exactly the
header followed by the footer. -/
theorem no_qualifying_entry_header_then_footer (o : Interfaces)
    (h : ∀ p ∈ o, ∀ e ∈ p.2, ¬ (e.family = "IPv4" ∧ e.internal = false)) :
    run o = Except.ok
      ["🌐 Network Interfaces:",
       "\n📋 Instructions:",
       "1. Look for an IP address starting with 192.168.x.x, 10.x.x.x, or 172.x.x.x",
       "2. Update lib/core/config.dart with your actual IP address",
       "3. Update blabbin-backend/src/config/index.js CORS settings",
       "4. Restart both the backend server and Flutter app"] := by
  have hq : qualifyingEntries o = [] := by
    unfold qualifyingEntries
    rw [List.filter_eq_nil_iff]
    rintro ⟨n, e⟩ hp hqe
    obtain ⟨es, hes, he⟩ := (mem_entriesInOrder_iff o n e).1 hp
    exact h (n, es) (mem_of_getProp o n es hes) e he ((qualifies_iff e).1 hqe)
  rw [run_eq, body_eq_qualifying, hq]
  rfl

/-- Witness for C7: a table with an adapter without records, a loopback
record and an IPv6 record. -/
theorem no_qualifying_entry_header_then_footer_witness :
    run [("eth1", []),
         ("lo", [{ address := "127.0.0.1", family := "IPv4", internal := true }]),
         ("wlan0", [{ address := "fe80::1", family := "IPv6", internal := false }])]
      = Except.ok
      ["🌐 Network Interfaces:",
       "\n📋 Instructions:",
       "1. Look for an IP address starting with 192.168.x.x, 10.x.x.x, or 172.x.x.x",
       "2. Update lib/core/config.dart with your actual IP address",
       "3. Update blabbin-backend/src/config/index.js CORS settings",
       "4. Restart both the backend server and Flutter app"] :=
  no_qualifying_entry_header_then_footer _ (by decide)

/-- C8. For every IPv4 address in canonical dotted-decimal form `a.b.c.d`
(octets below 256, no leading zeros) the address starts with `10.` iff
`a = 10`, starts with `192.168.` iff `a = 192` and `b = 168`, and starts with
`172.` iff `a = 172`; hence it is recommended iff it lies in `10.0.0.0/8`, in
`192.168.0.0/16` or has first octet 172, every address of `172.16.0.0` to
`172.31.255.255` is recommended, and so is `172.200.1.1`, which lies outside
that range. -/
theorem heuristic_on_dotted_decimal (a b c d : Nat)
    (ha : a < 256) (hb : b < 256) (_hc : c < 256) (_hd : d < 256) :
    (startsWith (dottedDecimal a b c d) "10." = true ↔ a = 10) ∧
    (startsWith (dottedDecimal a b c d) "192.168." = true ↔ a = 192 ∧ b = 168) ∧
    (startsWith (dottedDecimal a b c d) "172." = true ↔ a = 172) ∧
    (isRecommended (dottedDecimal a b c d) = true ↔
      a = 10 ∨ (a = 192 ∧ b = 168) ∨ a = 172) ∧
    (a = 172 → 16 ≤ b → b ≤ 31 → isRecommended (dottedDecimal a b c d) = true) ∧
    (dottedDecimal 172 200 1 1 = "172.200.1.1" ∧ ¬ (16 ≤ 200 ∧ 200 ≤ 31) ∧
      isRecommended "172.200.1.1" = true) := by
  obtain ⟨hadot, ha10, ha172, ha192, _⟩ := octet_numeral a ha
  obtain ⟨hbdot, _, _, _, hb168⟩ := octet_numeral b hb
  have h10 : startsWith (dottedDecimal a b c d) "10." = true ↔ a = 10 := by
    unfold startsWith
    rw [dottedDecimal_data]
    have := isPrefixOf_dot ['1', '0'] [] (Nat.repr a).data
      ((Nat.repr b).data ++ '.' :: ((Nat.repr c).data ++ '.' :: (Nat.repr d).data))
      (by decide) hadot
    have hlit : "10.".data = ['1', '0'] ++ '.' :: [] := by decide
    rw [hlit, this, ha10]
    simp
  have h172 : startsWith (dottedDecimal a b c d) "172." = true ↔ a = 172 := by
    unfold startsWith
    rw [dottedDecimal_data]
    have := isPrefixOf_dot ['1', '7', '2'] [] (Nat.repr a).data
      ((Nat.repr b).data ++ '.' :: ((Nat.repr c).data ++ '.' :: (Nat.repr d).data))
      (by decide) hadot
    have hlit : "172.".data = ['1', '7', '2'] ++ '.' :: [] := by decide
    rw [hlit, this, ha172]
    simp
  have h192 : startsWith (dottedDecimal a b c d) "192.168." = true ↔ a = 192 ∧ b = 168 := by
    unfold startsWith
    rw [dottedDecimal_data]
    have h1 := isPrefixOf_dot ['1', '9', '2'] (['1', '6', '8'] ++ '.' :: [])
      (Nat.repr a).data
      ((Nat.repr b).data ++ '.' :: ((Nat.repr c).data ++ '.' :: (Nat.repr d).data))
      (by decide) hadot
    have h2 := isPrefixOf_dot ['1', '6', '8'] [] (Nat.repr b).data
      ((Nat.repr c).data ++ '.' :: (Nat.repr d).data) (by decide) hbdot
    have hlit : "192.168.".data = ['1', '9', '2'] ++ '.' :: (['1', '6', '8'] ++ '.' :: []) := by
      decide
    rw [hlit, h1, h2, ha192, hb168]
    simp
  have hrec : isRecommended (dottedDecimal a b c d) = true ↔
      a = 10 ∨ (a = 192 ∧ b = 168) ∨ a = 172 := by
    rw [isRecommended_iff, h10, h192, h172]
    constructor
    · rintro (h | h | h)
      · exact Or.inr (Or.inl h)
      · exact Or.inl h
      · exact Or.inr (Or.inr h)
    · rintro (h | h | h)
      · exact Or.inr (Or.inl h)
      · exact Or.inl h
      · exact Or.inr (Or.inr h)
  refine ⟨h10, h192, h172, hrec, ?_, by decide, by decide, by decide⟩
  intro h _ _
  exact hrec.2 (Or.inr (Or.inr h))

/-- Witness for C8: the address `172.16.0.5`. -/
theorem heuristic_on_dotted_decimal_witness :
    dottedDecimal 172 16 0 5 = "172.16.0.5" ∧
    (startsWith (dottedDecimal 172 16 0 5) "10." = true ↔ 172 = 10) ∧
    (startsWith (dottedDecimal 172 16 0 5) "192.168." = true ↔ 172 = 192 ∧ 16 = 168) ∧
    (startsWith (dottedDecimal 172 16 0 5) "172." = true ↔ 172 = 172) ∧
    (isRecommended (dottedDecimal 172 16 0 5) = true ↔
      172 = 10 ∨ (172 = 192 ∧ 16 = 168) ∨ 172 = 172) ∧
    (172 = 172 → 16 ≤ 16 → 16 ≤ 31 → isRecommended (dottedDecimal 172 16 0 5) = true) ∧
    (dottedDecimal 172 200 1 1 = "172.200.1.1" ∧ ¬ (16 ≤ 200 ∧ 200 ≤ 31) ∧
      isRecommended "172.200.1.1" = true) :=
  ⟨by decide, heuristic_on_dotted_decimal 172 16 0 5
    (by decide) (by decide) (by decide) (by decide)⟩

/-- C9. The output of a run is a function of the interface table alone: two
runs from states with equal interface tables, whatever is already on standard
output, both succeed, leave the interface table as it was and append the same
entries; in particular a second run right after a first appends again what the
first appended. -/
theorem output_depends_on_interfaces_only (w₁ w₂ : World)
    (h : w₁.interfaces = w₂.interfaces) :
    ∃ out,
      run w₁.interfaces = Except.ok out ∧
      getLocalIPAddress w₁ =
        Except.ok { interfaces := w₁.interfaces, stdout := w₁.stdout ++ out } ∧
      getLocalIPAddress w₂ =
        Except.ok { interfaces := w₂.interfaces, stdout := w₂.stdout ++ out } ∧
      getLocalIPAddress { interfaces := w₁.interfaces, stdout := w₁.stdout ++ out } =
        Except.ok { interfaces := w₁.interfaces, stdout := w₁.stdout ++ out ++ out } := by
  refine ⟨header :: (body w₁.interfaces ++ footer), run_eq _, getLocalIPAddress_eq _, ?_, ?_⟩
  · rw [getLocalIPAddress_eq, h]
  · rw [getLocalIPAddress_eq]

/-- Witness for C9: a fresh state and a state whose standard output already
holds text, over the same interface table. -/
theorem output_depends_on_interfaces_only_witness :
    ∃ out,
      run [("eth0", [{ address := "192.168.1.50", family := "IPv4", internal := false }])]
        = Except.ok out ∧
      getLocalIPAddress
          { interfaces :=
              [("eth0", [{ address := "192.168.1.50", family := "IPv4", internal := false }])],
            stdout := [] } =
        Except.ok
          { interfaces :=
              [("eth0", [{ address := "192.168.1.50", family := "IPv4", internal := false }])],
            stdout := [] ++ out } ∧
      getLocalIPAddress
          { interfaces :=
              [("eth0", [{ address := "192.168.1.50", family := "IPv4", internal := false }])],
            stdout := ["earlier text"] } =
        Except.ok
          { interfaces :=
              [("eth0", [{ address := "192.168.1.50", family := "IPv4", internal := false }])],
            stdout := ["earlier text"] ++ out } ∧
      getLocalIPAddress
          { interfaces :=
              [("eth0", [{ address := "192.168.1.50", family := "IPv4", internal := false }])],
            stdout := [] ++ out } =
        Except.ok
          { interfaces :=
              [("eth0", [{ address := "192.168.1.50", family := "IPv4", internal := false }])],
            stdout := [] ++ out ++ out } :=
  output_depends_on_interfaces_only
    { interfaces :=
        [("eth0", [{ address := "192.168.1.50", family := "IPv4", internal := false }])],
      stdout := [] }
    { interfaces :=
        [("eth0", [{ address := "192.168.1.50", family := "IPv4", internal := false }])],
      stdout := ["earlier text"] }
    rfl

/-- C10. For every interface table, with `q` the records that are IPv4 and
not internal, taken in the order of `Object.keys` and then in array order, the
output is the header, then for each record of `q` in order its interface line
followed, exactly when its address starts with `192.168.`, `10.` or `172.`, by
the recommended line carrying the same address, then the footer; hence every
recommended line stands right after the interface line of its record, and the
number of `console.log` calls is one, plus the length of `q`, plus the number
of records of `q` whose address starts with one of the three prefixes, plus
five. -/
theorem output_shape_and_call_count (o : Interfaces) :
    ∃ q : List (String × NetworkInterfaceInfo),
      q = (((objectKeys o).flatMap fun name =>
            ((getProp o name).getD []).map fun e => (name, e)).filter
          fun p => decide (p.2.family = "IPv4") && !p.2.internal) ∧
      run o = Except.ok
        ("🌐 Network Interfaces:" ::
          (q.flatMap fun p =>
            ("📡 " ++ p.1 ++ ": " ++ p.2.address) ::
              (if (startsWith p.2.address "192.168." || startsWith p.2.address "10." ||
                    startsWith p.2.address "172.") = true
                then ["✅ Recommended for Flutter: " ++ p.2.address] else []))
          ++ ["\n📋 Instructions:",
              "1. Look for an IP address starting with 192.168.x.x, 10.x.x.x, or 172.x.x.x",
              "2. Update lib/core/config.dart with your actual IP address",
              "3. Update blabbin-backend/src/config/index.js CORS settings",
              "4. Restart both the backend server and Flutter app"]) ∧
      ∃ out, run o = Except.ok out ∧
        out.length =
          1 + q.length
            + (q.filter fun p =>
                startsWith p.2.address "192.168." || startsWith p.2.address "10." ||
                  startsWith p.2.address "172.").length
            + 5 := by
  refine ⟨qualifyingEntries o, rfl, run_eq_qualifying o, _, run_eq_qualifying o, ?_⟩
  have hlen := length_flatMap_lines (qualifyingEntries o)
  have hf : footer.length = 5 := rfl
  have hfun : (fun p : String × NetworkInterfaceInfo =>
      startsWith p.2.address "192.168." || startsWith p.2.address "10." ||
        startsWith p.2.address "172.") = fun p => isRecommended p.2.address := rfl
  rw [List.length_append, List.length_cons, hlen, hf, hfun]
  omega

end FindIp
